import Mathlib

/-!
Verification of the continuity and context engine of an episodic story
generator.  The Python source is shallowly embedded: dictionaries become
insertion-ordered association lists, the dynamic `None` episode values
become `Option Nat`, a Python `TypeError` raised by comparing `None`
against an integer becomes an `Except` error, and every external service
call (chat completion, similarity search) becomes an explicit oracle
argument.  All definitions are executable.
-/

set_option maxRecDepth 4096

/-! ### Python string primitives

`pyIn needle hay` models Python `needle in hay` (substring test) and
`pyEndsWith s suffix` models Python `s.endswith(suffix)`, both at the
character-list level. -/

/-- Does the second list start with the first one? -/
def startsWithChars : List Char → List Char → Bool
  | [], _ => true
  | _ :: _, [] => false
  | a :: as, b :: bs => a == b && startsWithChars as bs

/-- Does the needle occur as a contiguous run inside the haystack? -/
def containsChars (needle : List Char) : List Char → Bool
  | [] => startsWithChars needle []
  | c :: rest => startsWithChars needle (c :: rest) || containsChars needle rest

/-- Python `needle in haystack` for strings. -/
def pyIn (needle haystack : String) : Bool :=
  containsChars needle.data haystack.data

/-- Python `s.endswith(suffix)`. -/
def pyEndsWith (s suffix : String) : Bool :=
  s.data.drop (s.data.length - suffix.data.length) == suffix.data

/-- A Python runtime error surfaced by the embedded code.  The only error
the embedded fragment can raise is the `TypeError` produced by ordering
`None` against an integer. -/
inductive PyErr where
  | typeError : PyErr
deriving Repr, DecidableEq

/-! ### Python dictionaries

Python dicts preserve insertion order; they are modelled as association
lists with the usual first-match lookup. -/

/-- Python `k in d`. -/
def dictContains {α : Type} (d : List (String × α)) (k : String) : Bool :=
  d.any (fun p => p.1 == k)

/-- Python `d.get(k)` / `d[k]` as an `Option`. -/
def dictGet {α : Type} (d : List (String × α)) (k : String) : Option α :=
  (d.find? (fun p => p.1 == k)).map Prod.snd

/-- Python `d[k] = v`: replace the binding in place if the key exists,
otherwise append it. -/
def dictSet {α : Type} : List (String × α) → String → α → List (String × α)
  | [], k, v => [(k, v)]
  | (k1, v1) :: rest, k, v =>
    if k1 == k then (k1, v) :: rest else (k1, v1) :: dictSet rest k v

/-- In-place mutation of the value stored under a key (used for updates of
nested dictionaries such as `self.plot_points[pid]["status"] = ...`). -/
def dictModify {α : Type} : List (String × α) → String → (α → α) → List (String × α)
  | [], _, _ => []
  | (k1, v1) :: rest, k, f =>
    if k1 == k then (k1, f v1) :: rest else (k1, v1) :: dictModify rest k f

/-! ### Data model of `core/memory_manager.py`

`update_character_state` always stores integer episodes for characters,
so those fields are `Nat`; `add_plot_point` defaults `episode_added` to
`None`, so plot-side episode fields are `Option Nat` with `none` playing
the role of Python `None`. -/

/-- One entry of a character state history:
`{"episode": episode_number, "change": state_change}`. -/
structure StateChange where
  episode : Nat
  change : String
deriving Repr, DecidableEq

/-- A character record as built by `update_character_state`. -/
structure Character where
  name : String
  first_appearance : Nat
  state_history : List StateChange
deriving Repr, DecidableEq

/-- One entry of a plot status history:
`{"episode": ..., "status": ...}`; the episode may be Python `None`. -/
structure StatusEntry where
  episode : Option Nat
  status : String
deriving Repr, DecidableEq

/-- A plot point record as built by `add_plot_point`. -/
structure PlotPoint where
  id : Nat
  summary : String
  status : String
  episode_added : Option Nat
  status_history : List StatusEntry
deriving Repr, DecidableEq

/-- The persistent relational state of `MemoryManager`: the two Python
dicts and the id counter.  The vector store is external and is passed to
the retrieval operations as an explicit list of search results. -/
structure MemoryManager where
  characters : List (String × Character)
  plot_points : List (String × PlotPoint)
  plot_counter : Nat
deriving Repr, DecidableEq

/-- A `MemoryManager` freshly constructed with no persisted state. -/
def freshMemoryManager : MemoryManager := ⟨[], [], 0⟩

/-! ### Mutating operations -/

/-- `MemoryManager.update_character_state`: create the character on first
use with `first_appearance = episode_number`, then append to its
`state_history`. -/
def update_character_state (m : MemoryManager) (character_name state_change : String)
    (episode_number : Nat) : MemoryManager :=
  let chars :=
    if dictContains m.characters character_name then m.characters
    else m.characters ++ [(character_name, ⟨character_name, episode_number, []⟩)]
  let chars2 := dictModify chars character_name (fun c =>
    { c with state_history := c.state_history ++ [⟨episode_number, state_change⟩] })
  { m with characters := chars2 }

/-- `MemoryManager.add_plot_point`: bump the counter, use it as the new
id, and store the record under the key `str(plot_id)`.  Returns the id
together with the updated store. -/
def add_plot_point (m : MemoryManager) (summary status : String)
    (episode_added : Option Nat) : Nat × MemoryManager :=
  let plot_counter := m.plot_counter + 1
  let plot_id := plot_counter
  let pd : PlotPoint := ⟨plot_id, summary, status, episode_added, [⟨episode_added, status⟩]⟩
  (plot_id,
    { m with plot_counter := plot_counter,
             plot_points := dictSet m.plot_points (toString plot_id) pd })

/-- `MemoryManager.update_plot_status`: `False` and no mutation when the
id is unknown; otherwise set the current status and append to
`status_history`, returning `True`. -/
def update_plot_status (m : MemoryManager) (plot_id : Nat) (new_status : String)
    (episode_number : Nat) : Bool × MemoryManager :=
  let key := toString plot_id
  if dictContains m.plot_points key then
    let pp := dictModify m.plot_points key (fun pd =>
      { pd with status := new_status,
                status_history := pd.status_history ++ [⟨some episode_number, new_status⟩] })
    (true, { m with plot_points := pp })
  else (false, m)

/-! ### Read-only renderings -/

/-- Rendering `f"Episode {change['episode']}: {change['change']}"`. -/
def renderChange (c : StateChange) : String :=
  "Episode " ++ toString c.episode ++ ": " ++ c.change

/-- The slice `state_history[-3:]` used by `get_character_summaries`. -/
def recent_changes (c : Character) : List StateChange :=
  c.state_history.drop (c.state_history.length - 3)

/-- One line of `get_character_summaries` output for a character. -/
def characterSummaryLine (char_name : String) (c : Character) : String :=
  let changes_text := String.intercalate ("; ") ((recent_changes c).map renderChange)
  let s := char_name ++ ": First appeared in Episode " ++ toString c.first_appearance ++ ". "
  if changes_text == "" then s else s ++ "Recent state: " ++ changes_text

/-- `MemoryManager.get_character_summaries`: every character, identity
plus its last three state entries, with no episode filtering. -/
def get_character_summaries (m : MemoryManager) : String :=
  let summaries := m.characters.map (fun p => characterSummaryLine p.1 p.2)
  if summaries.isEmpty then ("No character information available.")
  else String.intercalate ("\n") summaries

/-- `MemoryManager.get_active_plot_points`: plots whose current status is
not terminal. -/
def get_active_plot_points (m : MemoryManager) : List (String × PlotPoint) :=
  m.plot_points.filter (fun p =>
    ¬ (p.2.status = ("resolved") ∨ p.2.status = ("completed") ∨ p.2.status = ("abandoned")))

/-! ### `get_context_summary` -/

/-- Python `x < n` where `x` may be `None`: ordering `None` against an
integer raises `TypeError`. -/
def pyLtOptNat (x : Option Nat) (n : Nat) : Except PyErr Bool :=
  match x with
  | none => Except.error PyErr.typeError
  | some v => Except.ok (v < n)

/-- The filter `[c for c in state_history if c["episode"] < N]`. -/
def relevantHistory (c : Character) (N : Nat) : List StateChange :=
  c.state_history.filter (fun ch => ch.episode < N)

/-- The slice `l[-2:]`. -/
def lastTwo {α : Type} (l : List α) : List α := l.drop (l.length - 2)

/-- The state entries displayed for one character by
`get_context_summary`: present only when `first_appearance < N` and some
history entry predates `N`; then the last two filtered entries. -/
def charShownEntries (c : Character) (N : Nat) : Option (List StateChange) :=
  if c.first_appearance < N then
    let rh := relevantHistory c N
    if rh.isEmpty then none else some (lastTwo rh)
  else none

/-- One character line of the context summary. -/
def charContextLine (char_name : String) (c : Character) (N : Nat) : Option String :=
  (charShownEntries c N).map (fun es =>
    char_name ++ ": " ++ String.intercalate ("; ") (es.map renderChange))

/-- The character block of `get_context_summary`. -/
def character_summary_lines (m : MemoryManager) (N : Nat) : List String :=
  m.characters.filterMap (fun p => charContextLine p.1 p.2 N)

/-- All state entries displayed in the character block. -/
def contextCharEntries (m : MemoryManager) (N : Nat) : List StateChange :=
  (m.characters.filterMap (fun p => charShownEntries p.2 N)).flatten

/-- The filter `[s for s in status_history if s["episode"] < N]`,
evaluated left to right; a `None` episode raises. -/
def filterStatusLt : List StatusEntry → Nat → Except PyErr (List StatusEntry)
  | [], _ => Except.ok []
  | s :: rest, N =>
    match pyLtOptNat s.episode N with
    | Except.error e => Except.error e
    | Except.ok b =>
      match filterStatusLt rest N with
      | Except.error e => Except.error e
      | Except.ok r => Except.ok (if b then s :: r else r)

/-- The status entry displayed for one plot point by
`get_context_summary`: guarded by `episode_added < N` (which raises on a
`None` value), then `relevant_status[-1]`. -/
def plotShownEntry (pd : PlotPoint) (N : Nat) : Except PyErr (Option StatusEntry) :=
  match pyLtOptNat pd.episode_added N with
  | Except.error e => Except.error e
  | Except.ok true =>
    match filterStatusLt pd.status_history N with
    | Except.error e => Except.error e
    | Except.ok rel => Except.ok rel.getLast?
  | Except.ok false => Except.ok none

/-- Rendering of an episode field inside an f-string: Python prints
`None` for a missing value. -/
def renderOptEp : Option Nat → String
  | some e => toString e
  | none => ("None")

/-- One plot line of the context summary. -/
def renderPlotLine (pd : PlotPoint) (latest : StatusEntry) : String :=
  "Plot: " ++ pd.summary ++ " - Status as of Episode " ++ renderOptEp latest.episode
    ++ ": " ++ latest.status

/-- The plot points of the store paired with the status entry each one
displays, in insertion order, propagating any `TypeError`. -/
def plotShown : List (String × PlotPoint) → Nat → Except PyErr (List (PlotPoint × StatusEntry))
  | [], _ => Except.ok []
  | (_, pd) :: rest, N =>
    match plotShownEntry pd N with
    | Except.error e => Except.error e
    | Except.ok sh =>
      match plotShown rest N with
      | Except.error e => Except.error e
      | Except.ok r =>
        Except.ok (match sh with
          | some latest => (pd, latest) :: r
          | none => r)

/-- `MemoryManager.get_context_summary`: the character block followed by
the plot block, with the source fallbacks for empty blocks. -/
def get_context_summary (m : MemoryManager) (N : Nat) : Except PyErr String :=
  let character_summary := character_summary_lines m N
  match plotShown m.plot_points N with
  | Except.error e => Except.error e
  | Except.ok shown =>
    let plot_summary := shown.map (fun pr => renderPlotLine pr.1 pr.2)
    let full1 :=
      if character_summary.isEmpty then ("No prior character information.")
      else "CHARACTER CONTEXT:\n" ++ String.intercalate ("\n") character_summary
    let full2 :=
      if plot_summary.isEmpty then "\n\nNo prior plot points."
      else "\n\nPLOT CONTEXT:\n" ++ String.intercalate ("\n") plot_summary
    Except.ok (full1 ++ full2)

/-! ### `get_relevant_chunks` -/

/-- A similarity-search result: page content plus the stored metadata. -/
structure Document where
  page_content : String
  episode : Option Nat
  chunk_index : Option Nat
deriving Repr, DecidableEq

/-- The `[From Episode ...]` source annotation of a retrieved chunk. -/
def sourceInfo (doc : Document) : String :=
  let s := "[From Episode " ++ (match doc.episode with
    | some e => toString e
    | none => ("unknown"))
  let s := match doc.chunk_index with
    | some i => s ++ ", Chunk " ++ toString i
    | none => s
  s ++ "]"

/-- One formatted retrieved chunk. -/
def chunkText (i : Nat) (doc : Document) : String :=
  "Relevant Context " ++ toString (i + 1) ++ " " ++ sourceInfo doc ++ ":\n"
    ++ doc.page_content ++ "\n"

/-- `MemoryManager.get_relevant_chunks`, with the similarity-search
results supplied by the external vector store as an argument.  No episode
filtering is applied to the results. -/
def get_relevant_chunks (docs : List Document) : String :=
  String.intercalate ("\n") (docs.enum.map (fun p => chunkText p.1 p.2))

/-! ### Persistence (`_save_persistent_data` / `_load_persistent_data`)

The three files written under the db path hold JSON trees; `json.dump`
followed by `json.load` is the identity on such trees, so a file is
modelled as the parsed JSON value it holds. -/

/-- A JSON value as produced by `json.dump` on the store data. -/
inductive JValue where
  | jnull : JValue
  | jnum : Nat → JValue
  | jstr : String → JValue
  | jarr : List JValue → JValue
  | jobj : List (String × JValue) → JValue
deriving Repr

/-- Field access inside a decoded JSON object. -/
def jGet (l : List (String × JValue)) (k : String) : Option JValue :=
  dictGet l k

/-- Encoding of an episode field that may be Python `None`. -/
def encodeOptNat : Option Nat → JValue
  | none => JValue.jnull
  | some n => JValue.jnum n

/-- Encoding of one character state entry. -/
def encodeStateChange (s : StateChange) : JValue :=
  JValue.jobj [(("episode"), JValue.jnum s.episode), (("change"), JValue.jstr s.change)]

/-- Encoding of one character record. -/
def encodeCharacter (c : Character) : JValue :=
  JValue.jobj [(("name"), JValue.jstr c.name),
    (("first_appearance"), JValue.jnum c.first_appearance),
    (("state_history"), JValue.jarr (c.state_history.map encodeStateChange))]

/-- Encoding of the `characters.json` table. -/
def encodeCharacters (cs : List (String × Character)) : JValue :=
  JValue.jobj (cs.map (fun p => (p.1, encodeCharacter p.2)))

/-- Encoding of one plot status entry. -/
def encodeStatusEntry (s : StatusEntry) : JValue :=
  JValue.jobj [(("episode"), encodeOptNat s.episode), (("status"), JValue.jstr s.status)]

/-- Encoding of one plot point record. -/
def encodePlotPoint (pd : PlotPoint) : JValue :=
  JValue.jobj [(("id"), JValue.jnum pd.id),
    (("summary"), JValue.jstr pd.summary),
    (("status"), JValue.jstr pd.status),
    (("episode_added"), encodeOptNat pd.episode_added),
    (("status_history"), JValue.jarr (pd.status_history.map encodeStatusEntry))]

/-- Encoding of the `plots.json` table. -/
def encodePlots (ps : List (String × PlotPoint)) : JValue :=
  JValue.jobj (ps.map (fun p => (p.1, encodePlotPoint p.2)))

/-- Decoding of an optional episode field. -/
def decodeOptNat : JValue → Option (Option Nat)
  | JValue.jnull => some none
  | JValue.jnum n => some (some n)
  | _ => none

/-- Decoding of one character state entry. -/
def decodeStateChange : JValue → Option StateChange
  | JValue.jobj l =>
    match jGet l ("episode"), jGet l ("change") with
    | some (JValue.jnum e), some (JValue.jstr ch) => some ⟨e, ch⟩
    | _, _ => none
  | _ => none

/-- Decoding of one character record. -/
def decodeCharacter : JValue → Option Character
  | JValue.jobj l =>
    match jGet l ("name"), jGet l ("first_appearance"), jGet l ("state_history") with
    | some (JValue.jstr n), some (JValue.jnum fa), some (JValue.jarr hs) =>
      match hs.mapM decodeStateChange with
      | some hist => some ⟨n, fa, hist⟩
      | none => none
    | _, _, _ => none
  | _ => none

/-- Decoding of the `characters.json` table. -/
def decodeCharacters : JValue → Option (List (String × Character))
  | JValue.jobj l =>
    l.mapM (fun p => (decodeCharacter p.2).map (fun c => (p.1, c)))
  | _ => none

/-- Decoding of one plot status entry. -/
def decodeStatusEntry : JValue → Option StatusEntry
  | JValue.jobj l =>
    match jGet l ("episode"), jGet l ("status") with
    | some ev, some (JValue.jstr st) =>
      match decodeOptNat ev with
      | some e => some ⟨e, st⟩
      | none => none
    | _, _ => none
  | _ => none

/-- Decoding of one plot point record. -/
def decodePlotPoint : JValue → Option PlotPoint
  | JValue.jobj l =>
    match jGet l ("id"), jGet l ("summary"), jGet l ("status"),
        jGet l ("episode_added"), jGet l ("status_history") with
    | some (JValue.jnum i), some (JValue.jstr su), some (JValue.jstr st),
        some ea, some (JValue.jarr hs) =>
      match decodeOptNat ea, hs.mapM decodeStatusEntry with
      | some e, some hist => some ⟨i, su, st, e, hist⟩
      | _, _ => none
    | _, _, _, _, _ => none
  | _ => none

/-- Decoding of the `plots.json` table. -/
def decodePlots : JValue → Option (List (String × PlotPoint))
  | JValue.jobj l =>
    l.mapM (fun p => (decodePlotPoint p.2).map (fun pd => (p.1, pd)))
  | _ => none

/-- Decoding of `counter.json` via `counter_data.get("plot_counter", 0)`. -/
def decodeCounter : JValue → Option Nat
  | JValue.jobj l =>
    match jGet l ("plot_counter") with
    | some (JValue.jnum n) => some n
    | none => some 0
    | some _ => none
  | _ => none

/-- The three files written under the db path, each present once a save
has happened. -/
structure PersistedFiles where
  characters_file : Option JValue
  plots_file : Option JValue
  counter_file : Option JValue

/-- `MemoryManager._save_persistent_data`: rewrite all three files with
the JSON dumps of the in-memory tables. -/
def save_persistent_data (m : MemoryManager) : PersistedFiles :=
  ⟨some (encodeCharacters m.characters),
   some (encodePlots m.plot_points),
   some (JValue.jobj [(("plot_counter"), JValue.jnum m.plot_counter)])⟩

/-- `MemoryManager._load_persistent_data` as run by a fresh instance:
missing files leave the fresh defaults; present files are parsed back
into the in-memory structures. -/
def load_persistent_data (fs : PersistedFiles) :
    Option (List (String × Character) × List (String × PlotPoint) × Nat) :=
  let chars? := match fs.characters_file with
    | none => some []
    | some v => decodeCharacters v
  let plots? := match fs.plots_file with
    | none => some []
    | some v => decodePlots v
  let counter? := match fs.counter_file with
    | none => some 0
    | some v => decodeCounter v
  match chars?, plots?, counter? with
  | some cs, some ps, some c => some (cs, ps, c)
  | _, _, _ => none

/-! ### `core/generator.py` -/

/-- The scene cap from `core/generator.py`. -/
def MAX_SCENES_PER_EPISODE : Nat := 10

/-- Result triple of `EpisodicGenerator._generate_scene`. -/
structure SceneResult where
  scene_script : String
  updated_summary : String
  episode_complete : Bool
deriving Repr, DecidableEq

/-- `EpisodicGenerator._generate_scene`, with the chat-completion call
abstracted as `svc scene_number` (the stripped response content, or a
raised exception).  On an exception the method returns the sentinel text
and signals episode end. -/
def generate_scene (svc : Nat → Except PyErr String) (scene_number : Nat)
    (previous_scene_summary : String) : SceneResult :=
  match svc scene_number with
  | Except.ok scene_script =>
    ⟨scene_script, previous_scene_summary ++ "\n\n" ++ scene_script,
      pyEndsWith scene_script ("# EPISODE END")⟩
  | Except.error _ =>
    ⟨"Error generating Scene " ++ toString scene_number, ("Error"), true⟩

/-- The while loop of `EpisodicGenerator.generate_episode_script`,
instrumented with the number of generation-service invocations performed
(second component of the result). -/
def scene_loop (svc : Nat → Except PyErr String) (scene_number : Nat)
    (previous_scenes_summary : String) (acc : List String) (calls : Nat) :
    List String × Nat :=
  if h : scene_number ≤ MAX_SCENES_PER_EPISODE then
    let r := generate_scene svc scene_number previous_scenes_summary
    if pyIn ("Error generating Scene") r.scene_script then
      (acc ++ ["ERROR GENERATING SCENE " ++ toString scene_number ++ ": Generation stopped."],
        calls + 1)
    else
      let acc2 := acc ++ [r.scene_script]
      if MAX_SCENES_PER_EPISODE < scene_number + 1 ∧ r.episode_complete = false then
        (acc2 ++ ["# SCENE LIMIT REACHED - EPISODE INCOMPLETE"], calls + 1)
      else if r.episode_complete = true then (acc2, calls + 1)
      else scene_loop svc (scene_number + 1) r.updated_summary acc2 (calls + 1)
  else (acc, calls)
termination_by MAX_SCENES_PER_EPISODE + 1 - scene_number
decreasing_by
  simp_wf
  omega

/-- `EpisodicGenerator.generate_episode_script`: the joined scene list
plus the number of service invocations. -/
def generate_episode_script (svc : Nat → Except PyErr String) : String × Nat :=
  let r := scene_loop svc 1 ("") [] 0
  (String.intercalate ("\n\n") r.1, r.2)

/-- A generation service response that neither fails, nor emits the
end-of-episode marker, nor happens to contain the error sentinel. -/
def okNoEnd (svc : Nat → Except PyErr String) (i : Nat) : Prop :=
  ∃ s, svc i = Except.ok s ∧ pyEndsWith s ("# EPISODE END") = false ∧
    pyIn ("Error generating Scene") s = false

/-! ### `core/refiner.py` -/

/-- One entry of `character_updates` in the extraction JSON. -/
structure CharacterUpd where
  name : String
  state_change : String
deriving Repr, DecidableEq

/-- The `plot_summary_or_id` field: the model may answer with an integer
id or with a free-text summary. -/
inductive PlotRef where
  | intRef : Nat → PlotRef
  | strRef : String → PlotRef
deriving Repr, DecidableEq

/-- One entry of `plot_updates` in the extraction JSON. -/
structure PlotUpd where
  plot_summary_or_id : PlotRef
  new_status : String
deriving Repr, DecidableEq

/-- The structured information extracted from a script by the updater
model. -/
structure ExtractedInfo where
  character_updates : List CharacterUpd
  plot_updates : List PlotUpd
  new_plot_points : List String
  key_event_summary : String
deriving Repr, DecidableEq

/-- `Refiner.critique_episode`: retrieves the context for the episode
(which can raise on malformed plot data), then asks the critic model; on
a service exception the critique text is the error sentinel.  The method
returns the pair of the original script and the critique text. -/
def critique_episode (script_text : String) (episode_number : Nat) (m : MemoryManager)
    (svc : Except PyErr String) : Except PyErr (String × String) :=
  match get_context_summary m episode_number with
  | Except.error e => Except.error e
  | Except.ok _ =>
    match svc with
    | Except.ok critique => Except.ok (script_text, critique)
    | Except.error _ => Except.ok (script_text, ("Error generating critique."))

/-- `Refiner.update_memory_from_script`, restricted to its structured
side effects on the relational store (the vector-store write is an
external best-effort call).  `extracted = none` models a parse failure,
which degrades to no structured updates. -/
def update_memory_from_script (m : MemoryManager) (episode_number : Nat)
    (extracted : Option ExtractedInfo) : MemoryManager :=
  match extracted with
  | none => m
  | some info =>
    let m1 := info.character_updates.foldl
      (fun acc u => update_character_state acc u.name u.state_change episode_number) m
    let m2 := info.plot_updates.foldl (fun acc u =>
      match u.plot_summary_or_id with
      | PlotRef.intRef pid => (update_plot_status acc pid u.new_status episode_number).2
      | PlotRef.strRef _ => acc) m1
    let m3 := info.new_plot_points.foldl
      (fun acc s => (add_plot_point acc s ("introduced") (some episode_number)).2) m2
    m3

/-! ### `core/pipeline.py` -/

/-- One episode entry of the master outline. -/
structure EpisodeSpec where
  episode : Nat
  title : String
  summary : String
  key_points : List String
deriving Repr, DecidableEq

/-- A planned character from the story plan. -/
structure PlanCharacter where
  name : String
  description : String
  motivation : String
deriving Repr, DecidableEq

/-- The story plan returned by the planner. -/
structure StoryPlan where
  title : String
  premise : String
  setting : String
  characters : List PlanCharacter
  master_outline : List EpisodeSpec
deriving Repr, DecidableEq

/-- `StoryPlanner.store_plan`: seeds the store with episode-0 planning
facts — each planned character as a state change at episode 0, each
episode objective and each key point as a plot point added at episode 0. -/
def store_plan (plan : StoryPlan) (m : MemoryManager) : MemoryManager :=
  let m1 := plan.characters.foldl (fun acc c =>
    update_character_state acc c.name
      ("Description: " ++ c.description ++ ". Motivation: " ++ c.motivation) 0) m
  plan.master_outline.foldl (fun acc ep =>
    let acc2 := (add_plot_point acc
      ("Episode " ++ toString ep.episode ++ " objective: " ++ ep.summary)
      ("planned") (some 0)).2
    ep.key_points.foldl (fun acc3 point =>
      (add_plot_point acc3
        ("Episode " ++ toString ep.episode ++ " key point: " ++ point)
        ("planned") (some 0)).2) acc2) m1

/-- The dynamically-typed second return value of
`StoryPipeline.generate_episode`: a plain string on the failure paths,
the pair returned by `Refiner.critique_episode` on the success path. -/
inductive CritiqueVal where
  | text : String → CritiqueVal
  | pair : String × String → CritiqueVal
deriving Repr, DecidableEq

/-- One entry of `self.generated_episodes`. -/
structure GeneratedEpisode where
  script : String
  critique : CritiqueVal
deriving Repr, DecidableEq

/-- Python `d[k] = v` for the integer-keyed episode dictionary. -/
def dictSetNat {α : Type} : List (Nat × α) → Nat → α → List (Nat × α)
  | [], k, v => [(k, v)]
  | (k1, v1) :: rest, k, v =>
    if k1 == k then (k1, v) :: rest else (k1, v1) :: dictSetNat rest k v

/-- Python `d.get(k)` for the integer-keyed episode dictionary. -/
def dictGetNat {α : Type} (d : List (Nat × α)) (k : Nat) : Option α :=
  (d.find? (fun p => p.1 == k)).map Prod.snd

/-- The state of `StoryPipeline`. -/
structure Pipeline where
  story_plan : Option StoryPlan
  memory : MemoryManager
  generated_episodes : List (Nat × GeneratedEpisode)
deriving Repr, DecidableEq

/-- `StoryPipeline.generate_episode`.  External calls are supplied as
oracles: `sceneSvc` for per-scene generation, `critiqueSvc` for the
critic, `extracted` for the structured-extraction result.  Returns the
updated pipeline together with the pair `(script, critique)` the method
returns, the critique component being whatever Python value the code
produces. -/
def generate_episode (p : Pipeline) (episode_number : Nat)
    (sceneSvc : Nat → Except PyErr String) (critiqueSvc : Except PyErr String)
    (extracted : Option ExtractedInfo) :
    Except PyErr (Pipeline × Option String × CritiqueVal) :=
  match p.story_plan with
  | none => Except.ok (p, none, CritiqueVal.text ("No story plan exists."))
  | some plan =>
    match plan.master_outline.find? (fun ep => ep.episode == episode_number) with
    | none =>
      Except.ok (p, none,
        CritiqueVal.text ("Episode " ++ toString episode_number ++ " not found in story plan."))
    | some _ =>
      match get_context_summary p.memory episode_number with
      | Except.error e => Except.error e
      | Except.ok _context =>
        let script := (generate_episode_script sceneSvc).1
        if script = ("") ∨ pyIn ("Error generating script") script = true then
          Except.ok (p, some script, CritiqueVal.text ("Generation failed, no critique available."))
        else
          match critique_episode script episode_number p.memory critiqueSvc with
          | Except.error e => Except.error e
          | Except.ok critique =>
            let memory2 := update_memory_from_script p.memory episode_number extracted
            let p2 : Pipeline :=
              { p with memory := memory2,
                       generated_episodes := dictSetNat p.generated_episodes episode_number
                         ⟨script, CritiqueVal.pair critique⟩ }
            Except.ok (p2, some script, CritiqueVal.pair critique)

/-- `StoryPipeline.get_episode_data`. -/
def get_episode_data (p : Pipeline) (episode_number : Nat) : Option GeneratedEpisode :=
  dictGetNat p.generated_episodes episode_number

/-! ### Episode tags appearing in the assembled context bundle

`context_bundle_tags` lists every episode number attached to a piece of
information in the bundle `(context_summary, character_info,
relevant_chunks)` assembled by `StoryPipeline.generate_episode`. -/

/-- Episode tags shown by `get_context_summary` (empty when the call
raises, since then no text is returned). -/
def context_summary_tags (m : MemoryManager) (N : Nat) : List Nat :=
  match plotShown m.plot_points N with
  | Except.error _ => []
  | Except.ok shown =>
    (contextCharEntries m N).map (fun ch => ch.episode)
      ++ shown.filterMap (fun pr => pr.2.episode)

/-- Episode tags shown by `get_character_summaries`: every character
contributes its first appearance and its last three state entries. -/
def character_info_tags (m : MemoryManager) : List Nat :=
  (m.characters.map (fun p =>
    p.2.first_appearance :: (recent_changes p.2).map (fun ch => ch.episode))).flatten

/-- Episode tags shown by `get_relevant_chunks` on a given result list. -/
def relevant_chunk_tags (docs : List Document) : List Nat :=
  docs.filterMap (fun d => d.episode)

/-- All episode tags of the context bundle for episode `N`. -/
def context_bundle_tags (m : MemoryManager) (docs : List Document) (N : Nat) : List Nat :=
  context_summary_tags m N ++ character_info_tags m ++ relevant_chunk_tags docs

/-! ### Decimal printing of ids

The store keys plot points by `str(plot_id)`; the proofs about id
assignment need that distinct ids give distinct keys, i.e. that decimal
printing of naturals is injective. -/

/-- Numeric value of a decimal digit character. -/
def digitVal (c : Char) : Nat := c.toNat - 48

/-- Value of a most-significant-first decimal digit list. -/
def digitsVal (l : List Char) : Nat := l.foldl (fun a c => 10 * a + digitVal c) 0

theorem digitVal_digitChar : ∀ d : Nat, d < 10 → digitVal (Nat.digitChar d) = d := by
  decide

theorem toDigitsCore_append (fuel : Nat) : ∀ (n : Nat) (ds : List Char),
    Nat.toDigitsCore 10 fuel n ds = Nat.toDigitsCore 10 fuel n [] ++ ds := by
  induction fuel with
  | zero => intro n ds; simp [Nat.toDigitsCore]
  | succ f ih =>
    intro n ds
    simp only [Nat.toDigitsCore]
    by_cases h : n / 10 = 0
    · simp [h]
    · simp only [h, if_false]
      rw [ih (n / 10) (Nat.digitChar (n % 10) :: ds), ih (n / 10) [Nat.digitChar (n % 10)]]
      simp

theorem digitsVal_append_singleton (l : List Char) (c : Char) :
    digitsVal (l ++ [c]) = 10 * digitsVal l + digitVal c := by
  simp [digitsVal, List.foldl_append]

theorem digitsVal_toDigitsCore (fuel : Nat) : ∀ n, n < fuel →
    digitsVal (Nat.toDigitsCore 10 fuel n []) = n := by
  induction fuel with
  | zero => intro n hn; omega
  | succ f ih =>
    intro n hn
    simp only [Nat.toDigitsCore]
    by_cases h : n / 10 = 0
    · have hlt : n < 10 := by omega
      have hmod : n % 10 = n := Nat.mod_eq_of_lt hlt
      simp only [h, if_true, hmod]
      simp only [digitsVal, List.foldl_cons, List.foldl_nil, Nat.mul_zero, Nat.zero_add]
      exact digitVal_digitChar n hlt
    · simp only [h, if_false]
      rw [toDigitsCore_append, digitsVal_append_singleton,
        digitVal_digitChar (n % 10) (Nat.mod_lt _ (by norm_num))]
      have hn0 : 0 < n := by
        rcases Nat.eq_zero_or_pos n with h0 | h0
        · subst h0; simp at h
        · exact h0
      have hdiv : n / 10 < n := Nat.div_lt_self hn0 (by norm_num)
      rw [ih (n / 10) (by omega)]
      omega

theorem natRepr_injective : ∀ m n : Nat, Nat.repr m = Nat.repr n → m = n := by
  intro m n h
  have hdata : Nat.toDigitsCore 10 (m + 1) m [] = Nat.toDigitsCore 10 (n + 1) n [] := by
    have := congrArg String.data h
    simpa [Nat.repr, Nat.toDigits, List.asString] using this
  have hm := digitsVal_toDigitsCore (m + 1) m (Nat.lt_succ_self m)
  have hn := digitsVal_toDigitsCore (n + 1) n (Nat.lt_succ_self n)
  rw [hdata] at hm
  omega

theorem toString_nat_injective : ∀ m n : Nat, toString m = toString n → m = n := by
  intro m n h
  exact natRepr_injective m n h

/-! ### Dictionary lemmas -/

theorem dictGet_some_contains {α : Type} (d : List (String × α)) (k : String) (v : α)
    (h : dictGet d k = some v) : dictContains d k = true := by
  induction d with
  | nil => simp [dictGet] at h
  | cons p rest ih =>
    by_cases hk : (p.1 == k) = true
    · simp [dictContains, hk]
    · have hk2 : (p.1 == k) = false := by simpa using hk
      simp only [dictGet, List.find?, hk2] at h
      simp only [dictContains, List.any_cons, hk2, Bool.false_or]
      exact ih h

theorem dictGet_none_of_contains_false {α : Type} (d : List (String × α)) (k : String)
    (h : dictContains d k = false) : dictGet d k = none := by
  induction d with
  | nil => simp [dictGet]
  | cons p rest ih =>
    simp only [dictContains, List.any_cons, Bool.or_eq_false_iff] at h
    have h1 := h.1
    simp only [dictGet, List.find?, h1]
    exact ih h.2

theorem dictGet_modify_self {α : Type} (d : List (String × α)) (k : String) (f : α → α)
    (v : α) (h : dictGet d k = some v) :
    dictGet (dictModify d k f) k = some (f v) := by
  induction d with
  | nil => simp [dictGet] at h
  | cons p rest ih =>
    rcases p with ⟨k1, v1⟩
    by_cases hk : (k1 == k) = true
    · have hk2 : k1 = k := by simpa using hk
      subst hk2
      simp only [dictGet, List.find?, beq_self_eq_true] at h
      have hv : v1 = v := by simpa using h
      subst hv
      simp [dictModify, dictGet, List.find?]
    · have hk2 : (k1 == k) = false := by simpa using hk
      simp only [dictGet, List.find?, hk2] at h
      simp only [dictModify, hk2, Bool.false_eq_true, if_false, dictGet, List.find?]
      exact ih h

theorem dictGet_modify_ne {α : Type} (d : List (String × α)) (k k2 : String) (f : α → α)
    (h : (k2 == k) = false) :
    dictGet (dictModify d k f) k2 = dictGet d k2 := by
  induction d with
  | nil => simp [dictModify]
  | cons p rest ih =>
    rcases p with ⟨k1, v1⟩
    by_cases hk : k1 == k
    · have hk1 : k1 = k := by simpa using hk
      subst hk1
      have h2 : (k1 == k2) = false := by
        rcases beq_eq_false_iff_ne.mp h with hne
        exact beq_eq_false_iff_ne.mpr (fun hc => hne hc.symm)
      simp [dictModify, dictGet, List.find?, h2]
    · simp only [dictModify, hk, if_false, dictGet, List.find?]
      by_cases h1 : k1 == k2
      · simp [h1]
      · rw [Bool.not_eq_true] at h1
        simp only [h1]
        exact ih

theorem dictSet_append_of_contains_false {α : Type} (d : List (String × α)) (k : String)
    (v : α) (h : dictContains d k = false) : dictSet d k v = d ++ [(k, v)] := by
  induction d with
  | nil => simp [dictSet]
  | cons p rest ih =>
    rcases p with ⟨k1, v1⟩
    simp only [dictContains, List.any_cons, Bool.or_eq_false_iff] at h
    simp only [dictSet, h.1, Bool.false_eq_true, if_false, List.cons_append]
    rw [ih h.2]

/-! ### Claim C9 -/

/-- C9: `update_plot_status` on an unknown id returns `False` and leaves
the store untouched; on a known id it returns `True`, sets the current
status, appends `(episode, new_status)` to that status history, and
changes nothing else. -/
theorem c9_update_plot_status (m : MemoryManager) (plot_id : Nat) (new_status : String)
    (episode_number : Nat) :
    (dictContains m.plot_points (toString plot_id) = false →
      update_plot_status m plot_id new_status episode_number = (false, m)) ∧
    (∀ pd, dictGet m.plot_points (toString plot_id) = some pd →
      (update_plot_status m plot_id new_status episode_number).1 = true ∧
      dictGet (update_plot_status m plot_id new_status episode_number).2.plot_points
          (toString plot_id)
        = some { pd with
                   status := new_status,
                   status_history :=
                     pd.status_history ++ [⟨some episode_number, new_status⟩] } ∧
      (∀ k2, (k2 == toString plot_id) = false →
        dictGet (update_plot_status m plot_id new_status episode_number).2.plot_points k2
          = dictGet m.plot_points k2) ∧
      (update_plot_status m plot_id new_status episode_number).2.characters = m.characters ∧
      (update_plot_status m plot_id new_status episode_number).2.plot_counter
        = m.plot_counter) := by
  constructor
  · intro h
    simp [update_plot_status, h]
  · intro pd hget
    have hc : dictContains m.plot_points (toString plot_id) = true :=
      dictGet_some_contains _ _ _ hget
    refine ⟨by simp [update_plot_status, hc], ?_, ?_, ?_, ?_⟩
    · simp only [update_plot_status, hc, if_true]
      exact dictGet_modify_self _ _ _ _ hget
    · intro k2 hk2
      simp only [update_plot_status, hc, if_true]
      exact dictGet_modify_ne _ _ _ _ hk2
    · simp [update_plot_status, hc]
    · simp [update_plot_status, hc]

/-- Witness for C9 at a concrete store: id 7 is absent, id 1 is present. -/
theorem c9_update_plot_status_witness :
    (update_plot_status ⟨[], [(("1"), ⟨1, ("q"), ("open"), some 0, [⟨some 0, ("open")⟩]⟩)], 1⟩
        7 ("done") 3 =
      (false, ⟨[], [(("1"), ⟨1, ("q"), ("open"), some 0, [⟨some 0, ("open")⟩]⟩)], 1⟩)) ∧
    (update_plot_status ⟨[], [(("1"), ⟨1, ("q"), ("open"), some 0, [⟨some 0, ("open")⟩]⟩)], 1⟩
        1 ("done") 3).1 = true := by
  constructor
  · exact (c9_update_plot_status _ 7 ("done") 3).1 (by decide)
  · exact ((c9_update_plot_status _ 1 ("done") 3).2
      ⟨1, ("q"), ("open"), some 0, [⟨some 0, ("open")⟩]⟩ (by decide)).1

/-! ### Claim C7: persistence round trip -/

theorem mapM_map_of_roundtrip {α β : Type} (enc : α → β) (dec : β → Option α)
    (h : ∀ x, dec (enc x) = some x) : ∀ l : List α, (l.map enc).mapM dec = some l := by
  intro l
  induction l with
  | nil => rfl
  | cons x xs ih =>
    simp only [List.map_cons, List.mapM_cons, h x, ih]
    rfl

theorem decodeStateChange_roundtrip (s : StateChange) :
    decodeStateChange (encodeStateChange s) = some s := rfl

theorem decodeStatusEntry_roundtrip (s : StatusEntry) :
    decodeStatusEntry (encodeStatusEntry s) = some s := by
  cases s with
  | mk e st => cases e <;> rfl

theorem decodeCharacter_roundtrip (c : Character) :
    decodeCharacter (encodeCharacter c) = some c := by
  cases c with
  | mk n fa hist =>
    show (match (hist.map encodeStateChange).mapM decodeStateChange with
      | some h2 => some (⟨n, fa, h2⟩ : Character)
      | none => none) = some ⟨n, fa, hist⟩
    rw [mapM_map_of_roundtrip encodeStateChange decodeStateChange decodeStateChange_roundtrip]

theorem decodePlotPoint_roundtrip (pd : PlotPoint) :
    decodePlotPoint (encodePlotPoint pd) = some pd := by
  cases pd with
  | mk i su st ea hist =>
    show (match decodeOptNat (encodeOptNat ea),
        (hist.map encodeStatusEntry).mapM decodeStatusEntry with
      | some e, some h2 => some (⟨i, su, st, e, h2⟩ : PlotPoint)
      | _, _ => none) = some ⟨i, su, st, ea, hist⟩
    rw [mapM_map_of_roundtrip encodeStatusEntry decodeStatusEntry decodeStatusEntry_roundtrip]
    cases ea <;> rfl

theorem decodeCharacters_roundtrip (cs : List (String × Character)) :
    decodeCharacters (encodeCharacters cs) = some cs := by
  simp only [encodeCharacters, decodeCharacters]
  exact mapM_map_of_roundtrip (fun p => (p.1, encodeCharacter p.2))
    (fun p => (decodeCharacter p.2).map (fun c => (p.1, c)))
    (fun p => by simp [decodeCharacter_roundtrip]) cs

theorem decodePlots_roundtrip (ps : List (String × PlotPoint)) :
    decodePlots (encodePlots ps) = some ps := by
  simp only [encodePlots, decodePlots]
  exact mapM_map_of_roundtrip (fun p => (p.1, encodePlotPoint p.2))
    (fun p => (decodePlotPoint p.2).map (fun pd => (p.1, pd)))
    (fun p => by simp [decodePlotPoint_roundtrip]) ps

/-- C7: saving the store and loading it from a fresh instance reproduces
the character table, the plot table and the id counter exactly. -/
theorem c7_persistence_roundtrip (m : MemoryManager) :
    load_persistent_data (save_persistent_data m)
      = some (m.characters, m.plot_points, m.plot_counter) := by
  simp only [save_persistent_data, load_persistent_data,
    decodeCharacters_roundtrip, decodePlots_roundtrip]
  rfl

/-! ### Claim C3: monotonic plot ids -/

/-- One request to `add_plot_point`. -/
structure AddReq where
  summary : String
  status : String
  episode_added : Option Nat
deriving Repr, DecidableEq

/-- A sequence of `add_plot_point` calls, collecting the returned ids. -/
def run_add_plot_points (m : MemoryManager) : List AddReq → List Nat × MemoryManager
  | [] => ([], m)
  | r :: rest =>
    let res := add_plot_point m r.summary r.status r.episode_added
    let res2 := run_add_plot_points res.2 rest
    (res.1 :: res2.1, res2.2)

/-- The record `add_plot_point` builds for id `i` and request `r`. -/
def mkPlot (i : Nat) (r : AddReq) : PlotPoint :=
  ⟨i, r.summary, r.status, r.episode_added, [⟨r.episode_added, r.status⟩]⟩

/-- The dictionary entries produced by a run of requests starting at a
given id. -/
def builtEntries : Nat → List AddReq → List (String × PlotPoint)
  | _, [] => []
  | i, r :: rest => (toString i, mkPlot i r) :: builtEntries (i + 1) rest

/-- All keys of the dictionary are decimal prints of ids at most `c`. -/
def keysBounded (c : Nat) (d : List (String × PlotPoint)) : Prop :=
  ∀ p ∈ d, ∃ i, i ≤ c ∧ p.1 = toString i

theorem contains_next_key_false (c : Nat) (d : List (String × PlotPoint))
    (h : keysBounded c d) : dictContains d (toString (c + 1)) = false := by
  by_contra hc
  rw [Bool.not_eq_false, dictContains, List.any_eq_true] at hc
  rcases hc with ⟨p, hp, hpk⟩
  rcases h p hp with ⟨i, hi, hk⟩
  have : i = c + 1 := toString_nat_injective i (c + 1) (hk ▸ (by simpa using hpk))
  omega

theorem run_add_plot_points_general (reqs : List AddReq) :
    ∀ (chars : List (String × Character)) (d : List (String × PlotPoint)) (c : Nat),
    keysBounded c d →
    run_add_plot_points ⟨chars, d, c⟩ reqs
      = (List.range' (c + 1) reqs.length, ⟨chars, d ++ builtEntries (c + 1) reqs, c + reqs.length⟩) := by
  induction reqs with
  | nil => intro chars d c _; simp [run_add_plot_points, builtEntries]
  | cons r rest ih =>
    intro chars d c hkb
    have hnc := contains_next_key_false c d hkb
    have hset := dictSet_append_of_contains_false d (toString (c + 1)) (mkPlot (c + 1) r) hnc
    have hkb2 : keysBounded (c + 1) (d ++ [(toString (c + 1), mkPlot (c + 1) r)]) := by
      intro p hp
      rcases List.mem_append.mp hp with hp1 | hp1
      · rcases hkb p hp1 with ⟨i, hi, hk⟩
        exact ⟨i, by omega, hk⟩
      · rcases List.mem_singleton.mp hp1 with rfl
        exact ⟨c + 1, le_refl _, rfl⟩
    simp only [run_add_plot_points, add_plot_point]
    rw [show (dictSet d (toString (c + 1)) ⟨c + 1, r.summary, r.status, r.episode_added,
      [⟨r.episode_added, r.status⟩]⟩) = dictSet d (toString (c + 1)) (mkPlot (c + 1) r) from rfl]
    rw [hset, ih chars _ (c + 1) hkb2]
    simp only [List.length_cons, builtEntries, List.range', List.append_assoc,
      List.singleton_append]
    rw [Nat.add_assoc c 1 rest.length, Nat.add_comm 1 rest.length]

theorem dictGet_builtEntries (reqs : List AddReq) : ∀ (s j : Nat) (hj : j < reqs.length),
    dictGet (builtEntries s reqs) (toString (s + j)) = some (mkPlot (s + j) (reqs.get ⟨j, hj⟩)) := by
  induction reqs with
  | nil => intro s j hj; simp at hj
  | cons r rest ih =>
    intro s j hj
    cases j with
    | zero =>
      simp only [builtEntries, dictGet, List.find?, Nat.add_zero, beq_self_eq_true]
      rfl
    | succ j2 =>
      have hne : (toString s == toString (s + (j2 + 1))) = false := by
        rw [beq_eq_false_iff_ne]
        intro hc
        have := toString_nat_injective s (s + (j2 + 1)) hc
        omega
      simp only [builtEntries, dictGet, List.find?, hne]
      have hrw : s + (j2 + 1) = (s + 1) + j2 := by omega
      rw [hrw]
      have hj2 : j2 < rest.length := by simpa using hj
      have := ih (s + 1) j2 hj2
      simp only [dictGet] at this
      rw [this]
      rfl

/-- C3: from a fresh store, a sequence of `k` calls to `add_plot_point`
returns the ids `1, 2, ..., k` in order, ends with the counter at `k`,
and stores each new plot point under the key of its assigned id. -/
theorem c3_monotonic_ids (reqs : List AddReq) :
    (run_add_plot_points freshMemoryManager reqs).1 = List.range' 1 reqs.length ∧
    (run_add_plot_points freshMemoryManager reqs).2.plot_counter = reqs.length ∧
    (run_add_plot_points freshMemoryManager reqs).2.plot_points = builtEntries 1 reqs ∧
    ∀ j (hj : j < reqs.length),
      dictGet (run_add_plot_points freshMemoryManager reqs).2.plot_points (toString (j + 1))
        = some (mkPlot (j + 1) (reqs.get ⟨j, hj⟩)) := by
  have hrun := run_add_plot_points_general reqs [] [] 0 (by intro p hp; simp at hp)
  rw [show freshMemoryManager = ⟨[], [], 0⟩ from rfl, hrun]
  refine ⟨rfl, by simp, by simp, ?_⟩
  intro j hj
  simp only [List.nil_append]
  have := dictGet_builtEntries reqs 1 j hj
  rw [show 1 + j = j + 1 from by omega] at this
  exact this

/-- Witness for C3: two concrete requests give ids 1 and 2, stored under
their own keys. -/
theorem c3_monotonic_ids_witness :
    (run_add_plot_points freshMemoryManager
        [⟨("thread a"), ("introduced"), some 1⟩, ⟨("thread b"), ("planned"), none⟩]).1
      = [1, 2] ∧
    dictGet (run_add_plot_points freshMemoryManager
        [⟨("thread a"), ("introduced"), some 1⟩, ⟨("thread b"), ("planned"), none⟩]).2.plot_points
        (toString 2)
      = some (mkPlot 2 ⟨("thread b"), ("planned"), none⟩) := by
  have h := c3_monotonic_ids
    [⟨("thread a"), ("introduced"), some 1⟩, ⟨("thread b"), ("planned"), none⟩]
  exact ⟨h.1, h.2.2.2 1 (by decide)⟩

/-! ### Context-summary lemmas -/

theorem mem_lastTwo {α : Type} {a : α} {l : List α} (h : a ∈ lastTwo l) : a ∈ l :=
  List.mem_of_mem_drop h

theorem contextCharEntries_lt (m : MemoryManager) (N : Nat) :
    ∀ e ∈ contextCharEntries m N, e.episode < N := by
  intro e he
  simp only [contextCharEntries, List.mem_flatten] at he
  rcases he with ⟨l, hl, hel⟩
  rcases List.mem_filterMap.mp hl with ⟨p, _, hp⟩
  simp only [charShownEntries] at hp
  by_cases hfa : p.2.first_appearance < N
  · rw [if_pos hfa] at hp
    by_cases hre : (relevantHistory p.2 N).isEmpty
    · rw [if_pos hre] at hp; cases hp
    · rw [if_neg hre] at hp
      have hl2 : l = lastTwo (relevantHistory p.2 N) := by
        injection hp with h2
        exact h2.symm
      subst hl2
      have := mem_lastTwo hel
      simp only [relevantHistory, List.mem_filter] at this
      simpa using this.2
  · rw [if_neg hfa] at hp; cases hp

theorem filterStatusLt_ok_mem {l : List StatusEntry} {N : Nat} {r : List StatusEntry}
    (h : filterStatusLt l N = Except.ok r) :
    ∀ s ∈ r, ∃ k, s.episode = some k ∧ k < N := by
  induction l generalizing r with
  | nil =>
    simp only [filterStatusLt] at h
    injection h with h2
    subst h2
    intro s hs
    cases hs
  | cons x rest ih =>
    intro s hs
    simp only [filterStatusLt] at h
    cases hepi : x.episode with
    | none =>
      rw [hepi] at h
      simp [pyLtOptNat] at h
    | some v =>
      rw [hepi] at h
      simp only [pyLtOptNat] at h
      cases hrest : filterStatusLt rest N with
      | error e => rw [hrest] at h; cases h
      | ok r2 =>
        rw [hrest] at h
        injection h with h2
        subst h2
        by_cases hv : v < N
        · rw [if_pos (by simp [hv])] at hs
          rcases List.mem_cons.mp hs with hsx | hsr
          · subst hsx
            exact ⟨v, hepi, hv⟩
          · exact ih hrest s hsr
        · rw [if_neg (by simp [hv])] at hs
          exact ih hrest s hs

theorem filterStatusLt_mem_keep {l : List StatusEntry} {N : Nat} {r : List StatusEntry}
    (h : filterStatusLt l N = Except.ok r) :
    ∀ s ∈ l, ∀ k, s.episode = some k → k < N → s ∈ r := by
  induction l generalizing r with
  | nil =>
    intro s hs
    cases hs
  | cons x rest ih =>
    intro s hs k hk hkN
    simp only [filterStatusLt] at h
    cases hepi : x.episode with
    | none =>
      rw [hepi] at h
      simp [pyLtOptNat] at h
    | some v =>
      rw [hepi] at h
      simp only [pyLtOptNat] at h
      cases hrest : filterStatusLt rest N with
      | error e => rw [hrest] at h; cases h
      | ok r2 =>
        rw [hrest] at h
        injection h with h2
        subst h2
        rcases List.mem_cons.mp hs with hsx | hsr
        · subst hsx
          rw [hepi] at hk
          injection hk with hk2
          subst hk2
          rw [if_pos (by simp [hkN])]
          simp
        · have hmem := ih hrest s hsr k hk hkN
          by_cases hv : v < N
          · rw [if_pos (by simp [hv])]
            simp [hmem]
          · rw [if_neg (by simp [hv])]
            exact hmem

theorem plotShownEntry_ok_some {pd : PlotPoint} {N : Nat} {st : StatusEntry}
    (h : plotShownEntry pd N = Except.ok (some st)) :
    ∃ k, st.episode = some k ∧ k < N := by
  simp only [plotShownEntry] at h
  cases hlt : pyLtOptNat pd.episode_added N with
  | error e => rw [hlt] at h; cases h
  | ok b =>
    rw [hlt] at h
    cases b with
    | false => cases h
    | true =>
      cases hrel : filterStatusLt pd.status_history N with
      | error e => rw [hrel] at h; cases h
      | ok rel =>
        rw [hrel] at h
        injection h with h2
        have hmem : st ∈ rel := List.mem_of_getLast?_eq_some h2
        exact filterStatusLt_ok_mem hrel st hmem

theorem plotShown_ok_mem {ps : List (String × PlotPoint)} {N : Nat}
    {shown : List (PlotPoint × StatusEntry)} (h : plotShown ps N = Except.ok shown) :
    ∀ pr ∈ shown, ∃ k, pr.2.episode = some k ∧ k < N := by
  induction ps generalizing shown with
  | nil =>
    simp only [plotShown] at h
    injection h with h2
    subst h2
    intro pr hpr
    cases hpr
  | cons p rest ih =>
    intro pr hpr
    simp only [plotShown] at h
    cases hsh : plotShownEntry p.2 N with
    | error e => rw [hsh] at h; cases h
    | ok sh =>
      rw [hsh] at h
      cases hrest : plotShown rest N with
      | error e => rw [hrest] at h; cases h
      | ok r2 =>
        rw [hrest] at h
        injection h with h2
        subst h2
        cases sh with
        | none => exact ih hrest pr hpr
        | some latest =>
          rcases List.mem_cons.mp hpr with hpx | hpr2
          · subst hpx
            exact plotShownEntry_ok_some hsh
          · exact ih hrest pr hpr2

/-! ### Claim C2 -/

/-- C2: for every store and every `N ≥ 1`, the context summary displays
only character entries and plot status entries with episode strictly
below `N`, while episode-0 planning facts always pass the causal filter:
an episode-0 state entry is always in the relevant history, a plot added
at episode 0 always passes the `episode_added` guard, and an episode-0
status entry always survives the status filter. -/
theorem c2_context_summary_causal (m : MemoryManager) (N : Nat) (hN : 1 ≤ N) :
    (∀ e ∈ contextCharEntries m N, e.episode < N) ∧
    (∀ shown, plotShown m.plot_points N = Except.ok shown →
      ∀ pr ∈ shown, ∃ k, pr.2.episode = some k ∧ k < N) ∧
    (∀ p ∈ m.characters, ∀ e ∈ p.2.state_history, e.episode = 0 →
      e ∈ relevantHistory p.2 N) ∧
    (∀ p ∈ m.plot_points, p.2.episode_added = some 0 →
      pyLtOptNat p.2.episode_added N = Except.ok true) ∧
    (∀ p ∈ m.plot_points, ∀ r, filterStatusLt p.2.status_history N = Except.ok r →
      ∀ s ∈ p.2.status_history, s.episode = some 0 → s ∈ r) := by
  refine ⟨contextCharEntries_lt m N, ?_, ?_, ?_, ?_⟩
  · intro shown hshown
    exact plotShown_ok_mem hshown
  · intro p _ e he h0
    refine List.mem_filter.mpr ⟨he, ?_⟩
    simp only [h0, decide_eq_true_eq]
    omega
  · intro p _ h0
    rw [h0]
    simp only [pyLtOptNat, Except.ok.injEq, decide_eq_true_eq]
    omega
  · intro p _ r hr s hs h0
    exact filterStatusLt_mem_keep hr s hs 0 h0 (by omega)

/-- Witness for C2 at a concrete store containing an episode-0 planning
fact and `N = 1`. -/
theorem c2_context_summary_causal_witness :
    (1 : Nat) ≤ 1 ∧
    (∀ e ∈ contextCharEntries
        ⟨[(("Ana"), ⟨("Ana"), 0, [⟨0, ("intro")⟩]⟩)],
         [(("1"), ⟨1, ("q"), ("planned"), some 0, [⟨some 0, ("planned")⟩]⟩)], 1⟩ 1,
      e.episode < 1) := by
  refine ⟨by decide, ?_⟩
  exact (c2_context_summary_causal
    ⟨[(("Ana"), ⟨("Ana"), 0, [⟨0, ("intro")⟩]⟩)],
     [(("1"), ⟨1, ("q"), ("planned"), some 0, [⟨some 0, ("planned")⟩]⟩)], 1⟩ 1 (by decide)).1

/-! ### Claim C1 -/

/-- A store after a regeneration scenario: a character whose history
already carries an episode-5 entry while episode 1 is being regenerated. -/
def memC1 : MemoryManager :=
  ⟨[(("Alice"), ⟨("Alice"), 0, [⟨0, ("introduced")⟩, ⟨5, ("injured")⟩]⟩)], [], 0⟩

/-- C1 counterexample: the claim that the whole context bundle for
episode `N` carries no tag `≥ N` is false — the `character_info`
component returned by `get_character_summaries` carries the episode-5
entry into the bundle assembled for episode 1. -/
theorem c1_counterexample :
    (5 ∈ context_bundle_tags memC1 [] 1) ∧
    ¬ (∀ t ∈ context_bundle_tags memC1 [] 1, t < 1) := by
  constructor
  · decide
  · intro h
    have := h 5 (by decide)
    omega

/-- C1 amended: only the `context_summary` component of the bundle obeys
the causal boundary — every episode tag it shows is strictly below `N`.
(The `character_info` and `relevant_chunks` components are not episode
filtered, as the counterexample shows.) -/
theorem c1_amended_context_summary_tags (m : MemoryManager) (N : Nat) :
    ∀ t ∈ context_summary_tags m N, t < N := by
  intro t ht
  simp only [context_summary_tags] at ht
  cases hps : plotShown m.plot_points N with
  | error e =>
    rw [hps] at ht
    cases ht
  | ok shown =>
    rw [hps] at ht
    rcases List.mem_append.mp ht with h1 | h1
    · rcases List.mem_map.mp h1 with ⟨e, he, rfl⟩
      exact contextCharEntries_lt m N e he
    · rcases List.mem_filterMap.mp h1 with ⟨pr, hpr, hep⟩
      rcases plotShown_ok_mem hps pr hpr with ⟨k, hk, hkN⟩
      rw [hk] at hep
      injection hep with h2
      omega

/-- Witness for the amended C1: a concrete store with an episode-0 fact
shown in the context summary for episode 1. -/
theorem c1_amended_context_summary_tags_witness :
    (0 ∈ context_summary_tags memC1 1) ∧ (0 : Nat) < 1 :=
  ⟨by decide, c1_amended_context_summary_tags memC1 1 0 (by decide)⟩

/-! ### Claim C6 -/

/-- A plot point whose status entries were appended out of episode
order. -/
def plotC6 : PlotPoint :=
  ⟨1, ("artifact quest"), ("stalled"), some 0,
    [⟨some 1, ("opened")⟩, ⟨some 3, ("advanced")⟩, ⟨some 2, ("stalled")⟩]⟩

/-- A store holding only `plotC6`. -/
def memC6 : MemoryManager := ⟨[], [(("1"), plotC6)], 1⟩

/-- C6 counterexample: with status entries appended out of episode order,
`get_context_summary(4)` shows the positionally last filtered entry
(episode 2), not the entry with the greatest episode field below 4
(episode 3), refuting the claim that `latest` is determined by the
episode field. -/
theorem c6_counterexample :
    plotShownEntry plotC6 4 = Except.ok (some ⟨some 2, ("stalled")⟩) ∧
    get_context_summary memC6 4 = Except.ok
      ("No prior character information.\n\nPLOT CONTEXT:\nPlot: artifact quest - Status as of Episode 2: stalled") ∧
    ¬ (∀ st, plotShownEntry plotC6 4 = Except.ok (some st) →
        ∀ s ∈ plotC6.status_history, ∀ k, s.episode = some k → k < 4 →
          ∃ j, st.episode = some j ∧ k ≤ j) := by
  refine ⟨by rfl, by rfl, ?_⟩
  intro hcl
  have := hcl ⟨some 2, ("stalled")⟩ (by rfl) ⟨some 3, ("advanced")⟩ (by decide) 3 rfl
    (by decide)
  rcases this with ⟨j, hj, hle⟩
  injection hj with h2
  omega

/-- Every status entry carries an integer episode (no Python `None`). -/
def all_episodes_present (l : List StatusEntry) : Bool :=
  l.all (fun s => s.episode.isSome)

theorem filterStatusLt_eq_filter (l : List StatusEntry) (N : Nat)
    (h : all_episodes_present l = true) :
    filterStatusLt l N = Except.ok (l.filter (fun s => s.episode.getD 0 < N)) := by
  induction l with
  | nil => rfl
  | cons x rest ih =>
    simp only [all_episodes_present, List.all_cons, Bool.and_eq_true] at h
    rcases Option.isSome_iff_exists.mp h.1 with ⟨v, hv⟩
    have hrest := ih (by simp [all_episodes_present, h.2])
    simp only [filterStatusLt, hv, pyLtOptNat, hrest, List.filter_cons]
    simp [hv]

/-- C6 amended: for a plot point with `episode_added = a < N` whose
status entries all carry integer episodes, the displayed entry is the
positionally last element, in insertion order, of the entries with
episode below `N` — not the one with the greatest episode field. -/
theorem c6_amended_positional_latest (pd : PlotPoint) (N a : Nat)
    (ha : pd.episode_added = some a) (haN : a < N)
    (hwf : all_episodes_present pd.status_history = true) :
    plotShownEntry pd N
      = Except.ok ((pd.status_history.filter (fun s => s.episode.getD 0 < N)).getLast?) := by
  simp only [plotShownEntry, ha, pyLtOptNat]
  rw [filterStatusLt_eq_filter _ _ hwf]
  simp [haN]

/-- Witness for the amended C6 at the out-of-order store: the shown entry
is the episode-2 entry, the positional last of the filtered history. -/
theorem c6_amended_positional_latest_witness :
    plotC6.episode_added = some 0 ∧ (0 : Nat) < 4 ∧
    all_episodes_present plotC6.status_history = true ∧
    plotShownEntry plotC6 4
      = Except.ok ((plotC6.status_history.filter (fun s => s.episode.getD 0 < 4)).getLast?) :=
  ⟨rfl, by decide, by decide, c6_amended_positional_latest plotC6 4 0 rfl (by decide) (by decide)⟩

/-! ### Claim C10 -/

theorem plotShown_error_of_none (ps : List (String × PlotPoint)) (N : Nat)
    (hex : ∃ pr ∈ ps, pr.2.episode_added = none) :
    plotShown ps N = Except.error PyErr.typeError := by
  induction ps with
  | nil =>
    rcases hex with ⟨pr, hpr, _⟩
    cases hpr
  | cons p rest ih =>
    rcases hex with ⟨pr, hpr, hnone⟩
    rcases List.mem_cons.mp hpr with hp | hp
    · subst hp
      simp [plotShown, plotShownEntry, hnone, pyLtOptNat]
    · cases hsh : plotShownEntry p.2 N with
      | error e =>
        cases e
        simp [plotShown, hsh]
      | ok sh =>
        have hrest := ih ⟨pr, hp, hnone⟩
        simp [plotShown, hsh, hrest]

/-- C10: if any plot point in the store carries the default
`episode_added = None`, then every call to `get_context_summary` raises
`TypeError` when Python compares `None` against the episode number.
(The in-repo callers — the planner with episode 0 and the refiner with
the current episode number — always pass integers, so the pipeline never
triggers this on its own paths.) -/
theorem c10_none_episode_added_raises (m : MemoryManager) (N : Nat)
    (hex : ∃ pr ∈ m.plot_points, pr.2.episode_added = none) :
    get_context_summary m N = Except.error PyErr.typeError := by
  simp [get_context_summary, plotShown_error_of_none m.plot_points N hex]

/-- Witness for C10: a store holding a plot point added with the default
`None` episode makes the context call raise. -/
theorem c10_none_episode_added_raises_witness :
    (∃ pr ∈ (⟨[], [(("1"), ⟨1, ("q"), ("introduced"), none, [⟨none, ("introduced")⟩]⟩)], 1⟩ :
        MemoryManager).plot_points, pr.2.episode_added = none) ∧
    get_context_summary
        ⟨[], [(("1"), ⟨1, ("q"), ("introduced"), none, [⟨none, ("introduced")⟩]⟩)], 1⟩ 3
      = Except.error PyErr.typeError := by
  refine ⟨by decide, ?_⟩
  exact c10_none_episode_added_raises _ 3 (by decide)

/-! ### Generator lemmas -/

theorem startsWithChars_append_self : ∀ xs ys : List Char,
    startsWithChars xs (xs ++ ys) = true := by
  intro xs
  induction xs with
  | nil => intro ys; rfl
  | cons a as ih => intro ys; simp [startsWithChars, ih]

theorem containsChars_of_startsWith (needle hay : List Char)
    (h : startsWithChars needle hay = true) : containsChars needle hay = true := by
  cases hay with
  | nil => exact h
  | cons c rest => simp [containsChars, h]

theorem pyIn_error_sentinel (n : Nat) :
    pyIn ("Error generating Scene") ("Error generating Scene " ++ toString n) = true := by
  have h1 : ("Error generating Scene " ++ toString n).data
      = ("Error generating Scene").data ++ (' ' :: (toString n).data) := by
    rw [String.data_append]
    have h2 : ("Error generating Scene ").data
        = ("Error generating Scene").data ++ [' '] := by rfl
    rw [h2, List.append_assoc]
    rfl
  unfold pyIn
  rw [h1]
  exact containsChars_of_startsWith _ _ (startsWithChars_append_self _ _)

theorem scene_loop_calls_le (svc : Nat → Except PyErr String) :
    ∀ (k s : Nat) (prev : String) (acc : List String) (c : Nat),
    MAX_SCENES_PER_EPISODE + 1 - s ≤ k → (scene_loop svc s prev acc c).2 ≤ c + k := by
  intro k
  induction k with
  | zero =>
    intro s prev acc c hs
    rw [scene_loop]
    rw [dif_neg (by omega : ¬ s ≤ MAX_SCENES_PER_EPISODE)]
    omega
  | succ k2 ih =>
    intro s prev acc c hs
    rw [scene_loop]
    by_cases h : s ≤ MAX_SCENES_PER_EPISODE
    · rw [dif_pos h]
      by_cases herr :
          pyIn ("Error generating Scene") (generate_scene svc s prev).scene_script = true
      · rw [if_pos herr]
        show c + 1 ≤ c + (k2 + 1)
        omega
      · rw [if_neg herr]
        by_cases hlim : MAX_SCENES_PER_EPISODE < s + 1 ∧
            (generate_scene svc s prev).episode_complete = false
        · rw [if_pos hlim]
          show c + 1 ≤ c + (k2 + 1)
          omega
        · rw [if_neg hlim]
          by_cases hcomp : (generate_scene svc s prev).episode_complete = true
          · rw [if_pos hcomp]
            show c + 1 ≤ c + (k2 + 1)
            omega
          · rw [if_neg hcomp]
            have := ih (s + 1) (generate_scene svc s prev).updated_summary
              (acc ++ [(generate_scene svc s prev).scene_script]) (c + 1) (by omega)
            omega
    · rw [dif_neg h]
      show c ≤ c + (k2 + 1)
      omega

theorem scene_loop_cap (svc : Nat → Except PyErr String) :
    ∀ (k s : Nat) (prev : String) (acc : List String) (c : Nat),
    s + k = MAX_SCENES_PER_EPISODE + 1 → 1 ≤ s → s ≤ MAX_SCENES_PER_EPISODE →
    (∀ i, s ≤ i → i ≤ MAX_SCENES_PER_EPISODE → okNoEnd svc i) →
    ∃ ss, scene_loop svc s prev acc c
      = (acc ++ ss ++ ["# SCENE LIMIT REACHED - EPISODE INCOMPLETE"], c + k) := by
  intro k
  induction k with
  | zero =>
    intro s prev acc c hsk hs1 hs10 _
    omega
  | succ k2 ih =>
    intro s prev acc c hsk hs1 hs10 hok
    obtain ⟨sc, hsvc, hend, hsent⟩ := hok s (le_refl s) hs10
    have hr : generate_scene svc s prev
        = ⟨sc, prev ++ "\n\n" ++ sc, pyEndsWith sc ("# EPISODE END")⟩ := by
      simp [generate_scene, hsvc]
    rw [scene_loop, dif_pos hs10, hr]
    simp only
    rw [if_neg (by simp [hsent])]
    by_cases hs : s = MAX_SCENES_PER_EPISODE
    · subst hs
      rw [if_pos (by exact ⟨by omega, hend⟩)]
      refine ⟨[sc], ?_⟩
      have hk2 : k2 = 0 := by omega
      subst hk2
      simp
    · rw [if_neg (by intro hc; omega)]
      rw [if_neg (by simp [hend])]
      obtain ⟨ss, hss⟩ := ih (s + 1) (prev ++ "\n\n" ++ sc) (acc ++ [sc]) (c + 1)
        (by omega) (by omega) (by omega)
        (fun i hi1 hi2 => hok i (by omega) hi2)
      refine ⟨sc :: ss, ?_⟩
      rw [hss]
      simp only [Prod.mk.injEq]
      constructor
      · simp [List.append_assoc]
      · omega

/-- C4: the scene loop calls the generation service at most the cap of
10 times for any behaviour of the service (and, being a total function,
always terminates); when the service keeps answering without an
end-of-episode marker, the loop stops exactly at the cap and appends the
scene-limit-reached annotation as the final element of the script. -/
theorem c4_scene_cap (svc : Nat → Except PyErr String) :
    (generate_episode_script svc).2 ≤ MAX_SCENES_PER_EPISODE ∧
    ((∀ i, 1 ≤ i → i ≤ MAX_SCENES_PER_EPISODE → okNoEnd svc i) →
      (scene_loop svc 1 ("") [] 0).1.getLast?
          = some ("# SCENE LIMIT REACHED - EPISODE INCOMPLETE") ∧
      (generate_episode_script svc).2 = MAX_SCENES_PER_EPISODE) := by
  constructor
  · have := scene_loop_calls_le svc MAX_SCENES_PER_EPISODE 1 ("") [] 0 (by decide)
    simpa [generate_episode_script] using this
  · intro hok
    obtain ⟨ss, hss⟩ := scene_loop_cap svc MAX_SCENES_PER_EPISODE 1 ("") [] 0
      (by decide) (by decide) (by decide) hok
    constructor
    · rw [hss]
      simp only [List.nil_append]
      exact List.getLast?_concat ss
    · simp [generate_episode_script, hss]

/-- Witness for C4: a service that always answers a plain scene hits the
cap, makes exactly 10 calls, and gets the limit annotation appended. -/
theorem c4_scene_cap_witness :
    (∀ i, 1 ≤ i → i ≤ MAX_SCENES_PER_EPISODE →
      okNoEnd (fun _ => Except.ok ("SCENE")) i) ∧
    (scene_loop (fun _ => Except.ok ("SCENE")) 1 ("") [] 0).1.getLast?
        = some ("# SCENE LIMIT REACHED - EPISODE INCOMPLETE") ∧
    (generate_episode_script (fun _ => Except.ok ("SCENE"))).2 = MAX_SCENES_PER_EPISODE := by
  have h : ∀ i, 1 ≤ i → i ≤ MAX_SCENES_PER_EPISODE →
      okNoEnd (fun _ => Except.ok ("SCENE")) i :=
    fun i _ _ => ⟨("SCENE"), rfl, by decide, by decide⟩
  exact ⟨h, ((c4_scene_cap _).2 h).1, ((c4_scene_cap _).2 h).2⟩

theorem scene_loop_error_run (svc : Nat → Except PyErr String) (f : Nat → String)
    (n : Nat) (e : PyErr) :
    ∀ (k s : Nat) (prev : String) (acc : List String) (c : Nat),
    s + k = n → 1 ≤ s → n ≤ MAX_SCENES_PER_EPISODE →
    (∀ i, s ≤ i → i < n → svc i = Except.ok (f i) ∧
      pyEndsWith (f i) ("# EPISODE END") = false ∧
      pyIn ("Error generating Scene") (f i) = false) →
    svc n = Except.error e →
    scene_loop svc s prev acc c
      = (acc ++ (List.range' s k).map f
          ++ ["ERROR GENERATING SCENE " ++ toString n ++ ": Generation stopped."],
         c + k + 1) := by
  intro k
  induction k with
  | zero =>
    intro s prev acc c hsk hs1 hn10 _ herr
    have hsn : s = n := by omega
    subst hsn
    have hr : generate_scene svc s prev
        = ⟨"Error generating Scene " ++ toString s, ("Error"), true⟩ := by
      simp [generate_scene, herr]
    rw [scene_loop, dif_pos (by omega), hr]
    simp only
    rw [if_pos (pyIn_error_sentinel s)]
    simp
  | succ k2 ih =>
    intro s prev acc c hsk hs1 hn10 hok herr
    obtain ⟨hsvc, hend, hsent⟩ := hok s (le_refl s) (by omega)
    have hr : generate_scene svc s prev
        = ⟨f s, prev ++ "\n\n" ++ f s, pyEndsWith (f s) ("# EPISODE END")⟩ := by
      simp [generate_scene, hsvc]
    rw [scene_loop, dif_pos (by omega), hr]
    simp only
    rw [if_neg (by simp [hsent])]
    rw [if_neg (by intro hc; omega)]
    rw [if_neg (by simp [hend])]
    have := ih (s + 1) (prev ++ "\n\n" ++ f s) (acc ++ [f s]) (c + 1)
      (by omega) (by omega) hn10
      (fun i hi1 hi2 => hok i (by omega) hi2) herr
    rw [this]
    simp only [Prod.mk.injEq, List.range']
    constructor
    · simp [List.append_assoc]
    · omega

/-- C8: when the generation service fails at scene `n`, the loop halts
after exactly `n` service calls (no retry), the `n - 1` scenes already
generated are preserved in order, and the per-scene error marker for
scene `n` is appended as the final element. -/
theorem c8_partial_script_preserved (svc : Nat → Except PyErr String) (f : Nat → String)
    (n : Nat) (e : PyErr) (hn1 : 1 ≤ n) (hn10 : n ≤ MAX_SCENES_PER_EPISODE)
    (hok : ∀ i, 1 ≤ i → i < n → svc i = Except.ok (f i) ∧
      pyEndsWith (f i) ("# EPISODE END") = false ∧
      pyIn ("Error generating Scene") (f i) = false)
    (herr : svc n = Except.error e) :
    scene_loop svc 1 ("") [] 0
      = ((List.range' 1 (n - 1)).map f
          ++ ["ERROR GENERATING SCENE " ++ toString n ++ ": Generation stopped."], n) := by
  have := scene_loop_error_run svc f n e (n - 1) 1 ("") [] 0 (by omega) (le_refl 1)
    hn10 hok herr
  rw [this]
  simp only [List.nil_append, Prod.mk.injEq]
  exact ⟨trivial, by omega⟩

/-- The generation service used by the C8 witness: it fails at scene 2. -/
def svcC8 : Nat → Except PyErr String :=
  fun i => if i == 2 then Except.error PyErr.typeError else Except.ok ("SCENE")

/-- Witness for C8: with a service failing at scene 2, the returned
script is the preserved scene 1 followed by the scene-2 error marker,
and exactly two service calls were made. -/
theorem c8_partial_script_preserved_witness :
    svcC8 2 = Except.error PyErr.typeError ∧
    scene_loop svcC8 1 ("") [] 0
      = ([("SCENE"), ("ERROR GENERATING SCENE 2: Generation stopped.")], 2) := by
  refine ⟨rfl, ?_⟩
  have h := c8_partial_script_preserved svcC8 (fun _ => ("SCENE")) 2 PyErr.typeError
    (by decide) (by decide)
    (fun i hi1 hi2 => by
      have : i = 1 := by omega
      subst this
      exact ⟨rfl, by decide, by decide⟩)
    rfl
  rw [h]
  rfl

/-! ### Claim C5 -/

/-- A one-episode story plan. -/
def planC5 : StoryPlan := ⟨("T"), ("P"), ("S"), [], [⟨1, ("Ep1"), ("Sum1"), []⟩]⟩

/-- A pipeline right after planning, with an empty store. -/
def pipeC5 : Pipeline := ⟨some planC5, freshMemoryManager, []⟩

/-- A generation service that completes the episode in one scene. -/
def sceneSvcC5 : Nat → Except PyErr String :=
  fun _ => Except.ok ("INT. ROOM - DAY\n\n# EPISODE END")

/-- The script that `generate_episode_script` produces for `sceneSvcC5`. -/
def scriptC5 : String := ("INT. ROOM - DAY\n\n# EPISODE END")

/-- C5 evaluated at a successful generation: `Refiner.critique_episode`
returns the pair `(script, critique_text)`, and the pipeline binds that
whole pair to its `critique` variable, so the value returned and stored
under `"critique"` is the pair — not the critique text `"Looks good"`
that the claim (and the pipeline failure paths, which put plain strings
there) expect. -/
theorem c5_critique_stored_as_pair :
    generate_episode pipeC5 1 sceneSvcC5 (Except.ok ("Looks good")) none
      = Except.ok
        (⟨some planC5, freshMemoryManager,
          [(1, ⟨scriptC5, CritiqueVal.pair (scriptC5, ("Looks good"))⟩)]⟩,
         some scriptC5, CritiqueVal.pair (scriptC5, ("Looks good"))) ∧
    get_episode_data
        ⟨some planC5, freshMemoryManager,
          [(1, ⟨scriptC5, CritiqueVal.pair (scriptC5, ("Looks good"))⟩)]⟩ 1
      = some ⟨scriptC5, CritiqueVal.pair (scriptC5, ("Looks good"))⟩ ∧
    CritiqueVal.pair (scriptC5, ("Looks good")) ≠ CritiqueVal.text ("Looks good") := by
  have hs : generate_episode_script sceneSvcC5 = (scriptC5, 1) := by
    simp only [generate_episode_script]
    rw [scene_loop]
    rfl
  refine ⟨?_, by rfl, by decide⟩
  unfold generate_episode
  rw [hs]
  rfl
